import Mathlib

/-!
Shallow embedding of the vkfft-rs safe wrapper layer (src/config.rs, src/app.rs,
src/error.rs, src/version.rs).

Modelling conventions:
- Vulkan object handles (device, queue, fence, command pool, physical device,
  buffer handles, command buffers) are opaque `u64`/pointer-sized values on the
  native side; they are embedded as `Nat`.
- A GPU buffer object (`Arc<dyn BufferAccess>`) is embedded as `BufferObj`,
  carrying its declared byte size (`BufferAccess::size`) and its native handle
  (`inner().buffer.internal_object().value()`).
- Native structures (`VkFFTConfiguration`, `VkFFTLaunchParams`) demand
  *pointers to* scalar slots.  A pointer field is embedded as `Option Nat`:
  `none` is the null pointer left by `zeroed()`, `some v` is a non-null pointer
  to a slot currently holding the value `v`.
- Fallible code (`Result`) is embedded as `Except`.
- The native engine itself (initializeVkFFT, VkFFTAppend, VkFFTGetVersion) is
  a black box.  A launch that reaches the native append call is embedded as
  returning the `AppendCall` (direction flag and marshaled parameters) that
  the wrapper hands to the engine.
-/

namespace VkFFTRs

/-- A concrete GPU buffer as seen by the wrapper: declared byte size plus the
raw numeric handle extracted from the Vulkan object. -/
structure BufferObj where
  size : Nat
  handle : Nat
deriving DecidableEq

/-- config.rs `BufferDesc`: either a concrete buffer or a bare byte size. -/
inductive BufferDesc where
  | Buffer (b : BufferObj)
  | BufferSize (n : Nat)
deriving DecidableEq

/-- config.rs `impl<T> From<Arc<T>> for BufferDesc`. -/
def BufferDesc.fromBuffer (b : BufferObj) : BufferDesc := .Buffer b

/-- config.rs `impl From<usize> for BufferDesc`. -/
def BufferDesc.fromUsize (n : Nat) : BufferDesc := .BufferSize n

/-- config.rs `BufferDesc::size`. -/
def BufferDesc.size : BufferDesc → Nat
  | .Buffer b => b.size
  | .BufferSize n => n

/-- config.rs `BufferDesc::as_buffer`. -/
def BufferDesc.as_buffer : BufferDesc → Option BufferObj
  | .Buffer b => some b
  | .BufferSize _ => none

/-- config.rs `BufferDesc::as_buffer_size`. -/
def BufferDesc.as_buffer_size : BufferDesc → Option Nat
  | .Buffer _ => none
  | .BufferSize n => some n

/-- config.rs `Precision`. -/
inductive Precision where
  | Single
  | Double
  | Half
  | HalfMemory
deriving DecidableEq

/-- config.rs `BuildError` (the builder's error enum, variants in source order). -/
inductive BuildError where
  | NoPhysicalDevice
  | NoDevice
  | NoQueue
  | NoFence
  | NoCommandPool
  | NoBuffer
deriving DecidableEq

/-- config.rs `ConfigError`. -/
inductive ConfigError where
  | InvalidConfig
deriving DecidableEq

/-- app.rs `LaunchError`: one variant per buffer category that may collide
between the plan's configuration and the per-call launch parameters. -/
inductive LaunchError where
  | ConfigSpecifiesBuffer
  | ConfigSpecifiesTempBuffer
  | ConfigSpecifiesInputBuffer
  | ConfigSpecifiesOutputBuffer
  | ConfigSpecifiesKernel
deriving DecidableEq

/-- config.rs `ConfigBuilder` (handles embedded as `Option Nat`; the `[T; 3]`
arrays are embedded as three scalar fields). -/
structure ConfigBuilder where
  fft_dim : Nat
  size0 : Nat
  size1 : Nat
  size2 : Nat
  physical_device : Option Nat
  device : Option Nat
  queue : Option Nat
  fence : Option Nat
  command_pool : Option Nat
  buffer : Option BufferDesc
  input_buffer : Option BufferDesc
  output_buffer : Option BufferDesc
  temp_buffer : Option BufferDesc
  kernel : Option BufferDesc
  normalize : Bool
  zero_padding0 : Bool
  zero_padding1 : Bool
  zero_padding2 : Bool
  zeropad_left0 : Nat
  zeropad_left1 : Nat
  zeropad_left2 : Nat
  zeropad_right0 : Nat
  zeropad_right1 : Nat
  zeropad_right2 : Nat
  kernel_convolution : Bool
  convolution : Bool
  r2c : Bool
  coordinate_features : Nat
  disable_reorder_four_step : Bool
  batch_count : Option Nat
  precision : Precision
  use_lut : Bool
  symmetric_kernel : Bool
  input_formatted : Option Bool
  output_formatted : Option Bool
deriving DecidableEq

/-- config.rs `ConfigBuilder::new`. -/
def ConfigBuilder.new : ConfigBuilder where
  fft_dim := 1
  size0 := 1
  size1 := 1
  size2 := 1
  physical_device := none
  device := none
  queue := none
  fence := none
  command_pool := none
  normalize := false
  zero_padding0 := false
  zero_padding1 := false
  zero_padding2 := false
  zeropad_left0 := 0
  zeropad_left1 := 0
  zeropad_left2 := 0
  zeropad_right0 := 0
  zeropad_right1 := 0
  zeropad_right2 := 0
  kernel_convolution := false
  r2c := false
  coordinate_features := 1
  disable_reorder_four_step := false
  buffer := none
  temp_buffer := none
  input_buffer := none
  output_buffer := none
  batch_count := none
  precision := .Single
  convolution := false
  use_lut := false
  symmetric_kernel := false
  input_formatted := none
  output_formatted := none
  kernel := none

/-- config.rs `ConfigBuilder::dim`.  The `N`-element extent array is embedded
as a list; the Rust `assert!(len <= 3)` (a panic) is embedded as returning
`none`, while normal completion returns `some` of the updated builder. -/
def ConfigBuilder.dim (self : ConfigBuilder) (d : List Nat) : Option ConfigBuilder :=
  let len := d.length
  if len ≤ 3 then
    some { self with
      fft_dim := len
      size0 := if len > 0 then d.getD 0 0 else self.size0
      size1 := if len > 1 then d.getD 1 0 else self.size1
      size2 := if len > 2 then d.getD 2 0 else self.size2 }
  else
    none

/-- config.rs `Config` (validated output of the builder; mandatory handles are
plain `Nat`). -/
structure Config where
  fft_dim : Nat
  size0 : Nat
  size1 : Nat
  size2 : Nat
  physical_device : Nat
  device : Nat
  queue : Nat
  fence : Nat
  command_pool : Nat
  buffer : Option BufferDesc
  input_buffer : Option BufferDesc
  output_buffer : Option BufferDesc
  temp_buffer : Option BufferDesc
  kernel : Option BufferDesc
  normalize : Bool
  zero_padding0 : Bool
  zero_padding1 : Bool
  zero_padding2 : Bool
  zeropad_left0 : Nat
  zeropad_left1 : Nat
  zeropad_left2 : Nat
  zeropad_right0 : Nat
  zeropad_right1 : Nat
  zeropad_right2 : Nat
  kernel_convolution : Bool
  convolution : Bool
  r2c : Bool
  coordinate_features : Nat
  disable_reorder_four_step : Bool
  batch_count : Option Nat
  precision : Precision
  use_lut : Bool
  symmetric_kernel : Bool
  input_formatted : Option Bool
  output_formatted : Option Bool
deriving DecidableEq

/-- config.rs `ConfigBuilder::build`: the five context handles are demanded in
source order (physical device, device, queue, fence, command pool); every
other field is carried over unconditionally. -/
def ConfigBuilder.build (self : ConfigBuilder) : Except BuildError Config :=
  match self.physical_device with
  | none => .error .NoPhysicalDevice
  | some physical_device =>
    match self.device with
    | none => .error .NoDevice
    | some device =>
      match self.queue with
      | none => .error .NoQueue
      | some queue =>
        match self.fence with
        | none => .error .NoFence
        | some fence =>
          match self.command_pool with
          | none => .error .NoCommandPool
          | some command_pool =>
            .ok {
              fft_dim := self.fft_dim
              size0 := self.size0
              size1 := self.size1
              size2 := self.size2
              physical_device := physical_device
              device := device
              queue := queue
              fence := fence
              command_pool := command_pool
              normalize := self.normalize
              zero_padding0 := self.zero_padding0
              zero_padding1 := self.zero_padding1
              zero_padding2 := self.zero_padding2
              zeropad_left0 := self.zeropad_left0
              zeropad_left1 := self.zeropad_left1
              zeropad_left2 := self.zeropad_left2
              zeropad_right0 := self.zeropad_right0
              zeropad_right1 := self.zeropad_right1
              zeropad_right2 := self.zeropad_right2
              kernel_convolution := self.kernel_convolution
              r2c := self.r2c
              coordinate_features := self.coordinate_features
              disable_reorder_four_step := self.disable_reorder_four_step
              buffer := self.buffer
              batch_count := self.batch_count
              precision := self.precision
              convolution := self.convolution
              use_lut := self.use_lut
              symmetric_kernel := self.symmetric_kernel
              input_formatted := self.input_formatted
              output_formatted := self.output_formatted
              kernel := self.kernel
              temp_buffer := self.temp_buffer
              input_buffer := self.input_buffer
              output_buffer := self.output_buffer }

/-- config.rs `Config::kernel_convolution` accessor. -/
def Config.kernel_convolution' (self : Config) : Bool :=
  self.kernel_convolution

/-- config.rs `Config::symmetric_kernel` accessor: the source body reads the
`kernel_convolution` field, not the `symmetric_kernel` field. -/
def Config.symmetric_kernel' (self : Config) : Bool :=
  self.kernel_convolution

/-- The subset of the native `VkFFTConfiguration` structure that config.rs
`Config::as_sys` writes.  Counts and flag fields are the native integers;
pointer fields are `Option Nat` (`none` = null from `zeroed()`, `some v` =
non-null pointer to a block-local scalar currently holding `v`). -/
structure VkFFTConfiguration where
  FFTdim : Nat
  size0 : Nat
  size1 : Nat
  size2 : Nat
  physicalDevice : Nat
  device : Nat
  queue : Nat
  commandPool : Nat
  fence : Nat
  normalize : Nat
  kernelNum : Nat
  kernelSize : Option Nat
  kernel : Option Nat
  bufferNum : Nat
  bufferSize : Option Nat
  buffer : Option Nat
  tempBufferNum : Nat
  tempBufferSize : Option Nat
  tempBuffer : Option Nat
  inputBufferNum : Nat
  inputBufferSize : Option Nat
  inputBuffer : Option Nat
  outputBufferNum : Nat
  outputBufferSize : Option Nat
  outputBuffer : Option Nat
  performZeropadding0 : Nat
  performZeropadding1 : Nat
  performZeropadding2 : Nat
  fft_zeropad_left0 : Nat
  fft_zeropad_left1 : Nat
  fft_zeropad_left2 : Nat
  fft_zeropad_right0 : Nat
  fft_zeropad_right1 : Nat
  fft_zeropad_right2 : Nat
  kernelConvolution : Nat
  performR2C : Nat
  coordinateFeatures : Nat
  disableReorderFourStep : Nat
  symmetricKernel : Nat
  isInputFormatted : Nat
  isOutputFormatted : Nat
  doublePrecision : Nat
  halfPrecision : Nat
  halfPrecisionMemoryOnly : Nat
  numberBatches : Nat
deriving DecidableEq

/-- The `std::mem::zeroed()` starting state of the native configuration. -/
def VkFFTConfiguration.zeroed : VkFFTConfiguration where
  FFTdim := 0
  size0 := 0
  size1 := 0
  size2 := 0
  physicalDevice := 0
  device := 0
  queue := 0
  commandPool := 0
  fence := 0
  normalize := 0
  kernelNum := 0
  kernelSize := none
  kernel := none
  bufferNum := 0
  bufferSize := none
  buffer := none
  tempBufferNum := 0
  tempBufferSize := none
  tempBuffer := none
  inputBufferNum := 0
  inputBufferSize := none
  inputBuffer := none
  outputBufferNum := 0
  outputBufferSize := none
  outputBuffer := none
  performZeropadding0 := 0
  performZeropadding1 := 0
  performZeropadding2 := 0
  fft_zeropad_left0 := 0
  fft_zeropad_left1 := 0
  fft_zeropad_left2 := 0
  fft_zeropad_right0 := 0
  fft_zeropad_right1 := 0
  fft_zeropad_right2 := 0
  kernelConvolution := 0
  performR2C := 0
  coordinateFeatures := 0
  disableReorderFourStep := 0
  symmetricKernel := 0
  isInputFormatted := 0
  isOutputFormatted := 0
  doublePrecision := 0
  halfPrecision := 0
  halfPrecisionMemoryOnly := 0
  numberBatches := 0

/-- The five buffer categories a configuration or a launch may carry. -/
inductive BufCat where
  | buffer
  | tempBuffer
  | inputBuffer
  | outputBuffer
  | kernel
deriving DecidableEq

/-- The Resource Descriptor a `Config` stores for a given category. -/
def Config.catDesc (self : Config) : BufCat → Option BufferDesc
  | .buffer => self.buffer
  | .tempBuffer => self.temp_buffer
  | .inputBuffer => self.input_buffer
  | .outputBuffer => self.output_buffer
  | .kernel => self.kernel

/-- config.rs as_sys: the block-local size scalar computed for a category
(`self.X.as_ref().map(|b| b.size()).unwrap_or(0)`). -/
def Config.catSizeScalar (self : Config) (cat : BufCat) : Nat :=
  ((self.catDesc cat).map BufferDesc.size).getD 0

/-- config.rs as_sys: the block-local handle scalar computed for a category
(`self.X.as_ref().map(|b| b.as_buffer()).flatten().map(|b| ...value())`). -/
def Config.catHandleScalar (self : Config) (cat : BufCat) : Option Nat :=
  ((self.catDesc cat).bind BufferDesc.as_buffer).map BufferObj.handle

/-- The native structure's count field for a category. -/
def VkFFTConfiguration.catNum (cfg : VkFFTConfiguration) : BufCat → Nat
  | .buffer => cfg.bufferNum
  | .tempBuffer => cfg.tempBufferNum
  | .inputBuffer => cfg.inputBufferNum
  | .outputBuffer => cfg.outputBufferNum
  | .kernel => cfg.kernelNum

/-- The native structure's size-pointer field for a category. -/
def VkFFTConfiguration.catSizePtr (cfg : VkFFTConfiguration) : BufCat → Option Nat
  | .buffer => cfg.bufferSize
  | .tempBuffer => cfg.tempBufferSize
  | .inputBuffer => cfg.inputBufferSize
  | .outputBuffer => cfg.outputBufferSize
  | .kernel => cfg.kernelSize

/-- The native structure's buffer-handle-pointer field for a category. -/
def VkFFTConfiguration.catHandlePtr (cfg : VkFFTConfiguration) : BufCat → Option Nat
  | .buffer => cfg.buffer
  | .tempBuffer => cfg.tempBuffer
  | .inputBuffer => cfg.inputBuffer
  | .outputBuffer => cfg.outputBuffer
  | .kernel => cfg.kernel

/-- One per-category marshaling block of config.rs `Config::as_sys`:
`if res.X_size != 0 { config.XNum = 1; config.XSize = &res.X_size }` followed
by `if let Some(t) = &res.X { config.X = t }`. -/
def VkFFTConfiguration.applyDesc (cfg : VkFFTConfiguration) (cat : BufCat)
    (sz : Nat) (hd : Option Nat) : VkFFTConfiguration :=
  let cfg :=
    if sz ≠ 0 then
      match cat with
      | .buffer => { cfg with bufferNum := 1, bufferSize := some sz }
      | .tempBuffer => { cfg with tempBufferNum := 1, tempBufferSize := some sz }
      | .inputBuffer => { cfg with inputBufferNum := 1, inputBufferSize := some sz }
      | .outputBuffer => { cfg with outputBufferNum := 1, outputBufferSize := some sz }
      | .kernel => { cfg with kernelNum := 1, kernelSize := some sz }
    else cfg
  match hd with
  | some t =>
    match cat with
    | .buffer => { cfg with buffer := some t }
    | .tempBuffer => { cfg with tempBuffer := some t }
    | .inputBuffer => { cfg with inputBuffer := some t }
    | .outputBuffer => { cfg with outputBuffer := some t }
    | .kernel => { cfg with kernel := some t }
  | none => cfg

/-- The five marshaling blocks of `Config::as_sys`, in source order
(kernel, buffer, temp buffer, input buffer, output buffer). -/
def Config.marshalBuffers (self : Config) (cfg : VkFFTConfiguration) : VkFFTConfiguration :=
  ((((cfg.applyDesc .kernel (self.catSizeScalar .kernel) (self.catHandleScalar .kernel)).applyDesc
      .buffer (self.catSizeScalar .buffer) (self.catHandleScalar .buffer)).applyDesc
      .tempBuffer (self.catSizeScalar .tempBuffer) (self.catHandleScalar .tempBuffer)).applyDesc
      .inputBuffer (self.catSizeScalar .inputBuffer) (self.catHandleScalar .inputBuffer)).applyDesc
      .outputBuffer (self.catSizeScalar .outputBuffer) (self.catHandleScalar .outputBuffer)

/-- The flag block of `Config::as_sys`: zero padding, convolution/R2C/reorder
flags, symmetric kernel, and the two optional formatted flags. -/
def Config.flagsStep (self : Config) (cfg : VkFFTConfiguration) : VkFFTConfiguration :=
  let cfg := { cfg with
    performZeropadding0 := self.zero_padding0.toNat
    performZeropadding1 := self.zero_padding1.toNat
    performZeropadding2 := self.zero_padding2.toNat
    fft_zeropad_left0 := self.zeropad_left0
    fft_zeropad_left1 := self.zeropad_left1
    fft_zeropad_left2 := self.zeropad_left2
    fft_zeropad_right0 := self.zeropad_right0
    fft_zeropad_right1 := self.zeropad_right1
    fft_zeropad_right2 := self.zeropad_right2
    kernelConvolution := self.kernel_convolution.toNat
    performR2C := self.r2c.toNat
    coordinateFeatures := self.coordinate_features
    disableReorderFourStep := self.disable_reorder_four_step.toNat
    symmetricKernel := self.symmetric_kernel.toNat }
  let cfg :=
    match self.input_formatted with
    | some f => { cfg with isInputFormatted := f.toNat }
    | none => cfg
  match self.output_formatted with
  | some f => { cfg with isOutputFormatted := f.toNat }
  | none => cfg

/-- The precision block of `Config::as_sys`.  In the half-memory-only case an
explicitly-false formatted flag is a contradictory configuration and errs;
otherwise both formatted flags are forced to true. -/
def Config.precisionStep (self : Config) (cfg : VkFFTConfiguration) :
    Except ConfigError VkFFTConfiguration :=
  match self.precision with
  | .Double => .ok { cfg with doublePrecision := 1 }
  | .Half => .ok { cfg with halfPrecision := 1 }
  | .HalfMemory =>
    let cfg := { cfg with halfPrecisionMemoryOnly := 1 }
    match self.input_formatted with
    | some false => .error .InvalidConfig
    | _ =>
      match self.output_formatted with
      | some false => .error .InvalidConfig
      | _ => .ok { cfg with isInputFormatted := 1, isOutputFormatted := 1 }
  | .Single => .ok cfg

/-- The batch-count block of `Config::as_sys`. -/
def Config.batchStep (self : Config) (cfg : VkFFTConfiguration) : VkFFTConfiguration :=
  match self.batch_count with
  | some n => { cfg with numberBatches := n }
  | none => cfg

/-- config.rs `KeepAlive`: the strong references the guard retains. -/
structure KeepAlive where
  device : Nat
  queue : Nat
  command_pool : Nat
  buffer : Option BufferObj
  input_buffer : Option BufferObj
  output_buffer : Option BufferObj
  temp_buffer : Option BufferObj
  kernel : Option BufferObj
deriving DecidableEq

/-- config.rs `ConfigGuard`: the pinned block holding the native structure,
the handle/size scalars its pointer fields reference, and the keep-alive
references. -/
structure ConfigGuard where
  keep_alive : KeepAlive
  config : VkFFTConfiguration
  physical_device : Nat
  device : Nat
  queue : Nat
  command_pool : Nat
  fence : Nat
  buffer_size : Nat
  buffer : Option Nat
  input_buffer_size : Nat
  input_buffer : Option Nat
  output_buffer_size : Nat
  output_buffer : Option Nat
  temp_buffer_size : Nat
  temp_buffer : Option Nat
  kernel_size : Nat
  kernel : Option Nat
deriving DecidableEq

/-- The `KeepAlive` block built at the top of `Config::as_sys`: the strong
references retained for each concrete buffer descriptor. -/
def Config.keepAlive (self : Config) : KeepAlive where
  device := self.device
  queue := self.queue
  command_pool := self.command_pool
  buffer := self.buffer.bind BufferDesc.as_buffer
  input_buffer := self.input_buffer.bind BufferDesc.as_buffer
  output_buffer := self.output_buffer.bind BufferDesc.as_buffer
  temp_buffer := self.temp_buffer.bind BufferDesc.as_buffer
  kernel := self.kernel.bind BufferDesc.as_buffer

/-- The first field block of `Config::as_sys`: dimensions, handle pointers and
the normalize flag written over the `zeroed()` native structure. -/
def Config.baseCfg (self : Config) : VkFFTConfiguration :=
  { VkFFTConfiguration.zeroed with
    FFTdim := self.fft_dim
    size0 := self.size0
    size1 := self.size1
    size2 := self.size2
    physicalDevice := self.physical_device
    device := self.device
    queue := self.queue
    commandPool := self.command_pool
    fence := self.fence
    normalize := self.normalize.toNat }

/-- config.rs `Config::as_sys`: build the guard's scalars, then fill the native
structure field by field in source order. -/
def Config.as_sys (self : Config) : Except ConfigError ConfigGuard :=
  let keep_alive := self.keepAlive
  let cfg := self.baseCfg
  let cfg := self.marshalBuffers cfg
  let cfg := self.flagsStep cfg
  match self.precisionStep cfg with
  | .error e => .error e
  | .ok cfg =>
    let cfg := self.batchStep cfg
    .ok {
      keep_alive := keep_alive
      config := cfg
      physical_device := self.physical_device
      device := self.device
      queue := self.queue
      command_pool := self.command_pool
      fence := self.fence
      buffer_size := self.catSizeScalar .buffer
      buffer := self.catHandleScalar .buffer
      input_buffer_size := self.catSizeScalar .inputBuffer
      input_buffer := self.catHandleScalar .inputBuffer
      output_buffer_size := self.catSizeScalar .outputBuffer
      output_buffer := self.catHandleScalar .outputBuffer
      temp_buffer_size := self.catSizeScalar .tempBuffer
      temp_buffer := self.catHandleScalar .tempBuffer
      kernel_size := self.catSizeScalar .kernel
      kernel := self.catHandleScalar .kernel }

/-- app.rs `LaunchParams` (built launch parameters; the command buffer is
mandatory, the five buffer overrides optional). -/
structure LaunchParams where
  command_buffer : Nat
  buffer : Option BufferObj
  temp_buffer : Option BufferObj
  input_buffer : Option BufferObj
  output_buffer : Option BufferObj
  kernel : Option BufferObj
deriving DecidableEq

/-- The subset of the native `VkFFTLaunchParams` structure app.rs writes;
pointer fields are `Option Nat` as in `VkFFTConfiguration`. -/
structure VkFFTLaunchParams where
  commandBuffer : Option Nat
  buffer : Option Nat
  tempBuffer : Option Nat
  inputBuffer : Option Nat
  outputBuffer : Option Nat
  kernel : Option Nat
deriving DecidableEq

/-- The `zeroed()` starting state of the native launch parameters. -/
def VkFFTLaunchParams.zeroed : VkFFTLaunchParams where
  commandBuffer := none
  buffer := none
  tempBuffer := none
  inputBuffer := none
  outputBuffer := none
  kernel := none

/-- app.rs `LaunchParamsGuard`: the pinned block holding the native launch
parameters plus the handle scalars they point into. -/
structure LaunchParamsGuard where
  params : VkFFTLaunchParams
  command_buffer : Nat
  buffer : Option Nat
  temp_buffer : Option Nat
  input_buffer : Option Nat
  output_buffer : Option Nat
  kernel : Option Nat
deriving DecidableEq

/-- app.rs `LaunchParams::as_sys`: copy each optional buffer's handle into a
block-local scalar, then point the native structure's fields at the scalars
that are present. -/
def LaunchParams.as_sys (self : LaunchParams) : LaunchParamsGuard :=
  let res : LaunchParamsGuard := {
    params := VkFFTLaunchParams.zeroed
    command_buffer := self.command_buffer
    buffer := self.buffer.map BufferObj.handle
    temp_buffer := self.temp_buffer.map BufferObj.handle
    input_buffer := self.input_buffer.map BufferObj.handle
    output_buffer := self.output_buffer.map BufferObj.handle
    kernel := self.kernel.map BufferObj.handle }
  let p := { res.params with commandBuffer := some res.command_buffer }
  let p := match res.buffer with
    | some b => { p with buffer := some b }
    | none => p
  let p := match res.temp_buffer with
    | some b => { p with tempBuffer := some b }
    | none => p
  let p := match res.input_buffer with
    | some b => { p with inputBuffer := some b }
    | none => p
  let p := match res.output_buffer with
    | some b => { p with outputBuffer := some b }
    | none => p
  let p := match res.kernel with
    | some k => { p with kernel := some k }
    | none => p
  { res with params := p }

/-- The 74 named native failure codes of error.rs `Error`, as an
argument-free enumeration (variants in source order). -/
inductive NativeError where
  | InvalidPhysicalDevice
  | InvalidDevice
  | InvalidQueue
  | InvalidCommandPool
  | InvalidFence
  | OnlyForwardFftInitialized
  | OnlyInverseFftInitialized
  | InvalidContext
  | InvalidPlatform
  | EmptyFftDim
  | EmptySize
  | EmptyBufferSize
  | EmptyBuffer
  | EmptyTempBufferSize
  | EmptyTempBuffer
  | EmptyInputBufferSize
  | EmptyInputBuffer
  | EmptyOutputBufferSize
  | EmptyOutputBuffer
  | EmptyKernelSize
  | EmptyKernel
  | UnsupportedRadix
  | UnsupportedFftLength
  | UnsupportedFftLengthR2C
  | FailedToAllocate
  | FailedToMapMemory
  | FailedToAllocateCommandBuffers
  | FailedToBeginCommandBuffer
  | FailedToEndCommandBuffer
  | FailedToSubmitQueue
  | FailedToWaitForFences
  | FailedToResetFences
  | FailedToCreateDescriptorPool
  | FailedToCreatedDescriptorSetLayout
  | FailedToAllocateDescriptorSets
  | FailedToCreatePipelineLayout
  | FailedShaderPreprocess
  | FailedShaderParse
  | FailedShaderLink
  | FailedSpirvGenerate
  | FailedToCreateShaderModule
  | FailedToCreateInstance
  | FailedToSetupDebugMessenger
  | FailedToFindPhysicalDevice
  | FailedToCreateDevice
  | FailedToCreateFence
  | FailedToCreateCommandPool
  | FailedToCreateBuffer
  | FailedToAllocateMemory
  | FailedToBindBufferMemory
  | FailedToFindMemory
  | FailedToSynchronize
  | FailedToCopy
  | FailedToCreateProgram
  | FailedToCompileProgram
  | FailedToGetCodeSize
  | FailedToGetCode
  | FailedToDestroyProgram
  | FailedToLoadModule
  | FailedToGetFunction
  | FailedToSetDynamicSharedMemory
  | FailedToModuleGetGlobal
  | FailedToLaunchKernel
  | FailedToEventRecord
  | FailedToAddNameExpression
  | FailedToInitialize
  | FailedToSetDeviceId
  | FailedToGetDevice
  | FailedToCreateContext
  | FailedToCreatePipeline
  | FailedToSetKernelArg
  | FailedToCreateCommandQueue
  | FailedToReleaseCommandQueue
  | FailedToEnumerateDevices
deriving DecidableEq

/-- error.rs `Error`: one variant per recognized native failure code, plus the
wrapped configuration and launch validation errors.  The Rust enum is flat;
here the 74 native-code variants are grouped behind the `Native` constructor
and each Rust variant name is provided as a same-named constant below. -/
inductive Error where
  | Native (n : NativeError)
  | Config (e : ConfigError)
  | Launch (e : LaunchError)
deriving DecidableEq

/-- error.rs `Error::InvalidPhysicalDevice`. -/
def Error.InvalidPhysicalDevice : Error := .Native .InvalidPhysicalDevice

/-- error.rs `Error::InvalidDevice`. -/
def Error.InvalidDevice : Error := .Native .InvalidDevice

/-- error.rs `Error::InvalidQueue`. -/
def Error.InvalidQueue : Error := .Native .InvalidQueue

/-- error.rs `Error::InvalidCommandPool`. -/
def Error.InvalidCommandPool : Error := .Native .InvalidCommandPool

/-- error.rs `Error::InvalidFence`. -/
def Error.InvalidFence : Error := .Native .InvalidFence

/-- error.rs `Error::OnlyForwardFftInitialized`. -/
def Error.OnlyForwardFftInitialized : Error := .Native .OnlyForwardFftInitialized

/-- error.rs `Error::OnlyInverseFftInitialized`. -/
def Error.OnlyInverseFftInitialized : Error := .Native .OnlyInverseFftInitialized

/-- error.rs `Error::InvalidContext`. -/
def Error.InvalidContext : Error := .Native .InvalidContext

/-- error.rs `Error::InvalidPlatform`. -/
def Error.InvalidPlatform : Error := .Native .InvalidPlatform

/-- error.rs `Error::EmptyFftDim`. -/
def Error.EmptyFftDim : Error := .Native .EmptyFftDim

/-- error.rs `Error::EmptySize`. -/
def Error.EmptySize : Error := .Native .EmptySize

/-- error.rs `Error::EmptyBufferSize`. -/
def Error.EmptyBufferSize : Error := .Native .EmptyBufferSize

/-- error.rs `Error::EmptyBuffer`. -/
def Error.EmptyBuffer : Error := .Native .EmptyBuffer

/-- error.rs `Error::EmptyTempBufferSize`. -/
def Error.EmptyTempBufferSize : Error := .Native .EmptyTempBufferSize

/-- error.rs `Error::EmptyTempBuffer`. -/
def Error.EmptyTempBuffer : Error := .Native .EmptyTempBuffer

/-- error.rs `Error::EmptyInputBufferSize`. -/
def Error.EmptyInputBufferSize : Error := .Native .EmptyInputBufferSize

/-- error.rs `Error::EmptyInputBuffer`. -/
def Error.EmptyInputBuffer : Error := .Native .EmptyInputBuffer

/-- error.rs `Error::EmptyOutputBufferSize`. -/
def Error.EmptyOutputBufferSize : Error := .Native .EmptyOutputBufferSize

/-- error.rs `Error::EmptyOutputBuffer`. -/
def Error.EmptyOutputBuffer : Error := .Native .EmptyOutputBuffer

/-- error.rs `Error::EmptyKernelSize`. -/
def Error.EmptyKernelSize : Error := .Native .EmptyKernelSize

/-- error.rs `Error::EmptyKernel`. -/
def Error.EmptyKernel : Error := .Native .EmptyKernel

/-- error.rs `Error::UnsupportedRadix`. -/
def Error.UnsupportedRadix : Error := .Native .UnsupportedRadix

/-- error.rs `Error::UnsupportedFftLength`. -/
def Error.UnsupportedFftLength : Error := .Native .UnsupportedFftLength

/-- error.rs `Error::UnsupportedFftLengthR2C`. -/
def Error.UnsupportedFftLengthR2C : Error := .Native .UnsupportedFftLengthR2C

/-- error.rs `Error::FailedToAllocate`. -/
def Error.FailedToAllocate : Error := .Native .FailedToAllocate

/-- error.rs `Error::FailedToMapMemory`. -/
def Error.FailedToMapMemory : Error := .Native .FailedToMapMemory

/-- error.rs `Error::FailedToAllocateCommandBuffers`. -/
def Error.FailedToAllocateCommandBuffers : Error := .Native .FailedToAllocateCommandBuffers

/-- error.rs `Error::FailedToBeginCommandBuffer`. -/
def Error.FailedToBeginCommandBuffer : Error := .Native .FailedToBeginCommandBuffer

/-- error.rs `Error::FailedToEndCommandBuffer`. -/
def Error.FailedToEndCommandBuffer : Error := .Native .FailedToEndCommandBuffer

/-- error.rs `Error::FailedToSubmitQueue`. -/
def Error.FailedToSubmitQueue : Error := .Native .FailedToSubmitQueue

/-- error.rs `Error::FailedToWaitForFences`. -/
def Error.FailedToWaitForFences : Error := .Native .FailedToWaitForFences

/-- error.rs `Error::FailedToResetFences`. -/
def Error.FailedToResetFences : Error := .Native .FailedToResetFences

/-- error.rs `Error::FailedToCreateDescriptorPool`. -/
def Error.FailedToCreateDescriptorPool : Error := .Native .FailedToCreateDescriptorPool

/-- error.rs `Error::FailedToCreatedDescriptorSetLayout`. -/
def Error.FailedToCreatedDescriptorSetLayout : Error := .Native .FailedToCreatedDescriptorSetLayout

/-- error.rs `Error::FailedToAllocateDescriptorSets`. -/
def Error.FailedToAllocateDescriptorSets : Error := .Native .FailedToAllocateDescriptorSets

/-- error.rs `Error::FailedToCreatePipelineLayout`. -/
def Error.FailedToCreatePipelineLayout : Error := .Native .FailedToCreatePipelineLayout

/-- error.rs `Error::FailedShaderPreprocess`. -/
def Error.FailedShaderPreprocess : Error := .Native .FailedShaderPreprocess

/-- error.rs `Error::FailedShaderParse`. -/
def Error.FailedShaderParse : Error := .Native .FailedShaderParse

/-- error.rs `Error::FailedShaderLink`. -/
def Error.FailedShaderLink : Error := .Native .FailedShaderLink

/-- error.rs `Error::FailedSpirvGenerate`. -/
def Error.FailedSpirvGenerate : Error := .Native .FailedSpirvGenerate

/-- error.rs `Error::FailedToCreateShaderModule`. -/
def Error.FailedToCreateShaderModule : Error := .Native .FailedToCreateShaderModule

/-- error.rs `Error::FailedToCreateInstance`. -/
def Error.FailedToCreateInstance : Error := .Native .FailedToCreateInstance

/-- error.rs `Error::FailedToSetupDebugMessenger`. -/
def Error.FailedToSetupDebugMessenger : Error := .Native .FailedToSetupDebugMessenger

/-- error.rs `Error::FailedToFindPhysicalDevice`. -/
def Error.FailedToFindPhysicalDevice : Error := .Native .FailedToFindPhysicalDevice

/-- error.rs `Error::FailedToCreateDevice`. -/
def Error.FailedToCreateDevice : Error := .Native .FailedToCreateDevice

/-- error.rs `Error::FailedToCreateFence`. -/
def Error.FailedToCreateFence : Error := .Native .FailedToCreateFence

/-- error.rs `Error::FailedToCreateCommandPool`. -/
def Error.FailedToCreateCommandPool : Error := .Native .FailedToCreateCommandPool

/-- error.rs `Error::FailedToCreateBuffer`. -/
def Error.FailedToCreateBuffer : Error := .Native .FailedToCreateBuffer

/-- error.rs `Error::FailedToAllocateMemory`. -/
def Error.FailedToAllocateMemory : Error := .Native .FailedToAllocateMemory

/-- error.rs `Error::FailedToBindBufferMemory`. -/
def Error.FailedToBindBufferMemory : Error := .Native .FailedToBindBufferMemory

/-- error.rs `Error::FailedToFindMemory`. -/
def Error.FailedToFindMemory : Error := .Native .FailedToFindMemory

/-- error.rs `Error::FailedToSynchronize`. -/
def Error.FailedToSynchronize : Error := .Native .FailedToSynchronize

/-- error.rs `Error::FailedToCopy`. -/
def Error.FailedToCopy : Error := .Native .FailedToCopy

/-- error.rs `Error::FailedToCreateProgram`. -/
def Error.FailedToCreateProgram : Error := .Native .FailedToCreateProgram

/-- error.rs `Error::FailedToCompileProgram`. -/
def Error.FailedToCompileProgram : Error := .Native .FailedToCompileProgram

/-- error.rs `Error::FailedToGetCodeSize`. -/
def Error.FailedToGetCodeSize : Error := .Native .FailedToGetCodeSize

/-- error.rs `Error::FailedToGetCode`. -/
def Error.FailedToGetCode : Error := .Native .FailedToGetCode

/-- error.rs `Error::FailedToDestroyProgram`. -/
def Error.FailedToDestroyProgram : Error := .Native .FailedToDestroyProgram

/-- error.rs `Error::FailedToLoadModule`. -/
def Error.FailedToLoadModule : Error := .Native .FailedToLoadModule

/-- error.rs `Error::FailedToGetFunction`. -/
def Error.FailedToGetFunction : Error := .Native .FailedToGetFunction

/-- error.rs `Error::FailedToSetDynamicSharedMemory`. -/
def Error.FailedToSetDynamicSharedMemory : Error := .Native .FailedToSetDynamicSharedMemory

/-- error.rs `Error::FailedToModuleGetGlobal`. -/
def Error.FailedToModuleGetGlobal : Error := .Native .FailedToModuleGetGlobal

/-- error.rs `Error::FailedToLaunchKernel`. -/
def Error.FailedToLaunchKernel : Error := .Native .FailedToLaunchKernel

/-- error.rs `Error::FailedToEventRecord`. -/
def Error.FailedToEventRecord : Error := .Native .FailedToEventRecord

/-- error.rs `Error::FailedToAddNameExpression`. -/
def Error.FailedToAddNameExpression : Error := .Native .FailedToAddNameExpression

/-- error.rs `Error::FailedToInitialize`. -/
def Error.FailedToInitialize : Error := .Native .FailedToInitialize

/-- error.rs `Error::FailedToSetDeviceId`. -/
def Error.FailedToSetDeviceId : Error := .Native .FailedToSetDeviceId

/-- error.rs `Error::FailedToGetDevice`. -/
def Error.FailedToGetDevice : Error := .Native .FailedToGetDevice

/-- error.rs `Error::FailedToCreateContext`. -/
def Error.FailedToCreateContext : Error := .Native .FailedToCreateContext

/-- error.rs `Error::FailedToCreatePipeline`. -/
def Error.FailedToCreatePipeline : Error := .Native .FailedToCreatePipeline

/-- error.rs `Error::FailedToSetKernelArg`. -/
def Error.FailedToSetKernelArg : Error := .Native .FailedToSetKernelArg

/-- error.rs `Error::FailedToCreateCommandQueue`. -/
def Error.FailedToCreateCommandQueue : Error := .Native .FailedToCreateCommandQueue

/-- error.rs `Error::FailedToReleaseCommandQueue`. -/
def Error.FailedToReleaseCommandQueue : Error := .Native .FailedToReleaseCommandQueue

/-- error.rs `Error::FailedToEnumerateDevices`. -/
def Error.FailedToEnumerateDevices : Error := .Native .FailedToEnumerateDevices


/-- error.rs `impl From<ConfigError> for Error`. -/
def Error.fromConfigError (e : ConfigError) : Error := .Config e

/-- error.rs `impl From<LaunchError> for Error`. -/
def Error.fromLaunchError (e : LaunchError) : Error := .Launch e

/-- Modelled from the spec: the native status-code type `VkFFTResult` of the
generated vkfft-sys bindings.  The bindings are produced at build time from
the external engine's header and are not under src/; per the spec the codes
are "either success (zero/sentinel) or one of a large closed set of named
failure codes".  The codes are embedded as integers: success is 0 and the
named failure constants are assigned pairwise-distinct nonzero values
(grouped as in the upstream header).  Only distinctness — not the particular
numerals — is relied on by any theorem. -/
def VKFFT_SUCCESS : Int := 0

set_option maxHeartbeats 1600000 in
/-- Modelled from the spec: the named failure codes of the native engine, as a
value-to-variant table in the exact arm order of error.rs
`impl TryFrom<VkFFTResult> for Error`.  The Rust `match` on integer constants
is embedded as a first-match lookup in this table. -/
def errorCodeTable : List (Int × Error) := [
  (1001, Error.InvalidPhysicalDevice),
  (1002, Error.InvalidDevice),
  (1003, Error.InvalidQueue),
  (1004, Error.InvalidCommandPool),
  (1005, Error.InvalidFence),
  (1006, Error.OnlyForwardFftInitialized),
  (1007, Error.OnlyInverseFftInitialized),
  (1008, Error.InvalidContext),
  (1009, Error.InvalidPlatform),
  (2001, Error.EmptyFftDim),
  (2002, Error.EmptySize),
  (2003, Error.EmptyBufferSize),
  (2004, Error.EmptyBuffer),
  (2005, Error.EmptyTempBufferSize),
  (2006, Error.EmptyTempBuffer),
  (2007, Error.EmptyInputBufferSize),
  (2008, Error.EmptyInputBuffer),
  (2009, Error.EmptyOutputBufferSize),
  (2010, Error.EmptyOutputBuffer),
  (2011, Error.EmptyKernelSize),
  (2012, Error.EmptyKernel),
  (3001, Error.UnsupportedRadix),
  (3002, Error.UnsupportedFftLength),
  (3003, Error.UnsupportedFftLengthR2C),
  (4001, Error.FailedToAllocate),
  (4002, Error.FailedToMapMemory),
  (4003, Error.FailedToAllocateCommandBuffers),
  (4004, Error.FailedToBeginCommandBuffer),
  (4005, Error.FailedToEndCommandBuffer),
  (4006, Error.FailedToSubmitQueue),
  (4007, Error.FailedToWaitForFences),
  (4008, Error.FailedToResetFences),
  (4009, Error.FailedToCreateDescriptorPool),
  (4010, Error.FailedToCreatedDescriptorSetLayout),
  (4011, Error.FailedToAllocateDescriptorSets),
  (4012, Error.FailedToCreatePipelineLayout),
  (4013, Error.FailedShaderPreprocess),
  (4014, Error.FailedShaderParse),
  (4015, Error.FailedShaderLink),
  (4016, Error.FailedSpirvGenerate),
  (4017, Error.FailedToCreateShaderModule),
  (4018, Error.FailedToCreateInstance),
  (4019, Error.FailedToSetupDebugMessenger),
  (4020, Error.FailedToFindPhysicalDevice),
  (4021, Error.FailedToCreateDevice),
  (4022, Error.FailedToCreateFence),
  (4023, Error.FailedToCreateCommandPool),
  (4024, Error.FailedToCreateBuffer),
  (4025, Error.FailedToAllocateMemory),
  (4026, Error.FailedToBindBufferMemory),
  (4027, Error.FailedToFindMemory),
  (4028, Error.FailedToSynchronize),
  (4029, Error.FailedToCopy),
  (4030, Error.FailedToCreateProgram),
  (4031, Error.FailedToCompileProgram),
  (4032, Error.FailedToGetCodeSize),
  (4033, Error.FailedToGetCode),
  (4034, Error.FailedToDestroyProgram),
  (4035, Error.FailedToLoadModule),
  (4036, Error.FailedToGetFunction),
  (4037, Error.FailedToSetDynamicSharedMemory),
  (4038, Error.FailedToModuleGetGlobal),
  (4039, Error.FailedToLaunchKernel),
  (4040, Error.FailedToEventRecord),
  (4041, Error.FailedToAddNameExpression),
  (4042, Error.FailedToInitialize),
  (4043, Error.FailedToSetDeviceId),
  (4044, Error.FailedToGetDevice),
  (4045, Error.FailedToCreateContext),
  (4046, Error.FailedToCreatePipeline),
  (4047, Error.FailedToSetKernelArg),
  (4048, Error.FailedToCreateCommandQueue),
  (4049, Error.FailedToReleaseCommandQueue),
  (4050, Error.FailedToEnumerateDevices)]

/-- error.rs `impl TryFrom<VkFFTResult> for Error`: a recognized failure code
converts to its variant, everything else (the catch-all `_` arm) fails the
conversion with `()`. -/
def tryFromError (value : Int) : Except Unit Error :=
  match errorCodeTable.find? (fun p => p.1 == value) with
  | some p => .ok p.2
  | none => .error ()

/-- error.rs `check_error`: a code the conversion recognizes becomes `Err` of
the converted variant; a code it does not recognize becomes `Ok(())`. -/
def check_error (result : Int) : Except Error Unit :=
  match tryFromError result with
  | .ok err => .error err
  | .error _ => .ok ()

/-- The arguments the wrapper hands to the native `VkFFTAppend` call: the
direction flag and the marshaled launch-parameters block. -/
structure AppendCall where
  direction : Int
  params : LaunchParamsGuard
deriving DecidableEq

/-- app.rs `App`: the Compute Plan.  The opaque native application value is a
black box; the plan's observable state is the configuration guard it owns. -/
structure App where
  config : ConfigGuard
deriving DecidableEq

/-- app.rs `App::new`: marshal the configuration (`config.as_sys()?`, with the
`ConfigError → Error` conversion) and construct the plan.  The status of the
native `initializeVkFFT` call is external to this layer. -/
def App.new (config : Config) : Except Error App :=
  match config.as_sys with
  | .error e => .error (Error.fromConfigError e)
  | .ok sys_config => .ok { config := sys_config }

/-- app.rs `App::launch`: marshal the launch parameters, run the
mutual-exclusivity checks in source order (buffer, temp buffer, input buffer,
output buffer — the source contains no kernel check), then reach the native
`VkFFTAppend` call with direction `1` if inverse and `-1` otherwise. -/
def App.launch (self : App) (params : LaunchParams) (inverse : Bool) :
    Except Error AppendCall :=
  let params := params.as_sys
  if self.config.buffer.isSome && params.buffer.isSome then
    .error (Error.fromLaunchError .ConfigSpecifiesBuffer)
  else if self.config.temp_buffer.isSome && params.temp_buffer.isSome then
    .error (Error.fromLaunchError .ConfigSpecifiesTempBuffer)
  else if self.config.input_buffer.isSome && params.input_buffer.isSome then
    .error (Error.fromLaunchError .ConfigSpecifiesInputBuffer)
  else if self.config.output_buffer.isSome && params.output_buffer.isSome then
    .error (Error.fromLaunchError .ConfigSpecifiesOutputBuffer)
  else
    .ok { direction := if inverse then 1 else -1, params := params }

/-- app.rs `App::forward`. -/
def App.forward (self : App) (params : LaunchParams) : Except Error AppendCall :=
  self.launch params false

/-- app.rs `App::inverse`. -/
def App.inverse (self : App) (params : LaunchParams) : Except Error AppendCall :=
  self.launch params true

/-- version.rs `Version`. -/
structure Version where
  major : Nat
  minor : Nat
  patch : Nat
deriving DecidableEq

/-- version.rs `version`: the integer returned by the native
`VkFFTGetVersion` query (a black-box `u32`, embedded as the argument) is
decoded into major/minor/patch fields. -/
def version (ver : Nat) : Version where
  major := ver / 10000
  minor := ver % 10000 / 100
  patch := ver % 100

/-- Helper: whether an `Except` is a success. -/
def exOk {ε α : Type} : Except ε α → Bool
  | .ok _ => true
  | .error _ => false

/-- Helper: extract the success value of an `Except`, with a fallback. -/
def exGet {ε α : Type} (e : Except ε α) (d : α) : α :=
  match e with
  | .ok a => a
  | .error _ => d

deriving instance DecidableEq for Except

/-- A minimal valid configuration (handles 1–5, all defaults), used as the base
of the concrete examples below. -/
def cPlain : Config where
  fft_dim := 1
  size0 := 1
  size1 := 1
  size2 := 1
  physical_device := 1
  device := 2
  queue := 3
  fence := 4
  command_pool := 5
  buffer := none
  input_buffer := none
  output_buffer := none
  temp_buffer := none
  kernel := none
  normalize := false
  zero_padding0 := false
  zero_padding1 := false
  zero_padding2 := false
  zeropad_left0 := 0
  zeropad_left1 := 0
  zeropad_left2 := 0
  zeropad_right0 := 0
  zeropad_right1 := 0
  zeropad_right2 := 0
  kernel_convolution := false
  convolution := false
  r2c := false
  coordinate_features := 1
  disable_reorder_four_step := false
  batch_count := none
  precision := .Single
  use_lut := false
  symmetric_kernel := false
  input_formatted := none
  output_formatted := none

/-- A fallback guard value for `exGet` (never the actual result in the
examples below, all of which marshal successfully). -/
def gFallback : ConfigGuard where
  keep_alive := cPlain.keepAlive
  config := .zeroed
  physical_device := 0
  device := 0
  queue := 0
  command_pool := 0
  fence := 0
  buffer_size := 0
  buffer := none
  input_buffer_size := 0
  input_buffer := none
  output_buffer_size := 0
  output_buffer := none
  temp_buffer_size := 0
  temp_buffer := none
  kernel_size := 0
  kernel := none

/-- The marshaled guard of the minimal configuration. -/
def gPlain : ConfigGuard := exGet cPlain.as_sys gFallback

/-- A plan built from the minimal configuration. -/
def appPlain : App := { config := gPlain }

/-- Launch parameters with only the mandatory command buffer. -/
def pPlain : LaunchParams where
  command_buffer := 11
  buffer := none
  temp_buffer := none
  input_buffer := none
  output_buffer := none
  kernel := none

/-- The append call a conflict-free forward launch reaches. -/
def callFw : AppendCall := { direction := -1, params := pPlain.as_sys }

/-- The append call a conflict-free inverse launch reaches. -/
def callInv : AppendCall := { direction := 1, params := pPlain.as_sys }

/-- A configuration whose Job Configuration specifies a concrete kernel
buffer (size 64, handle 7). -/
def cK : Config := { cPlain with kernel := some (.Buffer ⟨64, 7⟩) }

/-- The marshaled guard of `cK`. -/
def gK : ConfigGuard := exGet cK.as_sys gFallback

/-- Launch parameters that also supply a kernel buffer (size 64, handle 9). -/
def pK : LaunchParams := { pPlain with kernel := some ⟨64, 9⟩ }

/-- A builder with device, queue, fence and command pool set but no physical
device. -/
def bMissingPhys : ConfigBuilder :=
  { ConfigBuilder.new with device := some 2, queue := some 3, fence := some 4, command_pool := some 5 }

/-- A builder with physical device, queue, fence and command pool set but no
device. -/
def bMissingDev : ConfigBuilder :=
  { ConfigBuilder.new with
    physical_device := some 1
    queue := some 3
    fence := some 4
    command_pool := some 5 }

/-- The builder after `ConfigBuilder::new().dim(&[4, 5])`. -/
def cDim : ConfigBuilder := (ConfigBuilder.new.dim [4, 5]).getD ConfigBuilder.new

/-- A half-memory-only configuration with neither formatted flag set. -/
def cHM : Config := { cPlain with precision := .HalfMemory }

/-- The marshaled guard of `cHM`. -/
def gHM : ConfigGuard := exGet cHM.as_sys gFallback

/-- A half-memory-only configuration whose input-formatted flag was explicitly
set to false (contradictory). -/
def cHMbad : Config := { cPlain with precision := .HalfMemory, input_formatted := some false }

/-- A configuration with a size-only primary buffer descriptor of 32 bytes. -/
def cW : Config := { cPlain with buffer := some (.BufferSize 32) }

/-- The marshaled guard of `cW`. -/
def gW : ConfigGuard := exGet cW.as_sys gFallback

/-- A configuration with the symmetric-kernel flag set but the
kernel-convolution flag unset. -/
def cSym : Config := { cPlain with symmetric_kernel := true }

/-- The marshaled guard of `cSym`. -/
def gSym : ConfigGuard := exGet cSym.as_sys gFallback

/-! Helper lemmas about the marshaling pipeline. -/

lemma catNum_applyDesc_self (cfg : VkFFTConfiguration) (cat : BufCat) (sz : Nat) (hd : Option Nat) :
    (cfg.applyDesc cat sz hd).catNum cat = if sz ≠ 0 then 1 else cfg.catNum cat := by
  cases cat <;> cases hd <;> by_cases h : sz = 0 <;>
    simp [VkFFTConfiguration.applyDesc, VkFFTConfiguration.catNum, h]

lemma catSizePtr_applyDesc_self (cfg : VkFFTConfiguration) (cat : BufCat) (sz : Nat) (hd : Option Nat) :
    (cfg.applyDesc cat sz hd).catSizePtr cat = if sz ≠ 0 then some sz else cfg.catSizePtr cat := by
  cases cat <;> cases hd <;> by_cases h : sz = 0 <;>
    simp [VkFFTConfiguration.applyDesc, VkFFTConfiguration.catSizePtr, h]

lemma catHandlePtr_applyDesc_some (cfg : VkFFTConfiguration) (cat : BufCat) (sz t : Nat) :
    (cfg.applyDesc cat sz (some t)).catHandlePtr cat = some t := by
  cases cat <;> by_cases h : sz = 0 <;>
    simp [VkFFTConfiguration.applyDesc, VkFFTConfiguration.catHandlePtr, h]

lemma catHandlePtr_applyDesc_none (cfg : VkFFTConfiguration) (cat : BufCat) (sz : Nat) :
    (cfg.applyDesc cat sz none).catHandlePtr cat = cfg.catHandlePtr cat := by
  cases cat <;> by_cases h : sz = 0 <;>
    simp [VkFFTConfiguration.applyDesc, VkFFTConfiguration.catHandlePtr, h]

lemma catNum_applyDesc_of_ne (cat cat' : BufCat) (hne : cat ≠ cat')
    (cfg : VkFFTConfiguration) (sz : Nat) (hd : Option Nat) :
    (cfg.applyDesc cat' sz hd).catNum cat = cfg.catNum cat := by
  cases cat <;> cases cat' <;> (try exact absurd rfl hne) <;> cases hd <;>
    by_cases h : sz = 0 <;>
      simp [VkFFTConfiguration.applyDesc, VkFFTConfiguration.catNum, h]

lemma catSizePtr_applyDesc_of_ne (cat cat' : BufCat) (hne : cat ≠ cat')
    (cfg : VkFFTConfiguration) (sz : Nat) (hd : Option Nat) :
    (cfg.applyDesc cat' sz hd).catSizePtr cat = cfg.catSizePtr cat := by
  cases cat <;> cases cat' <;> (try exact absurd rfl hne) <;> cases hd <;>
    by_cases h : sz = 0 <;>
      simp [VkFFTConfiguration.applyDesc, VkFFTConfiguration.catSizePtr, h]

lemma catHandlePtr_applyDesc_of_ne (cat cat' : BufCat) (hne : cat ≠ cat')
    (cfg : VkFFTConfiguration) (sz : Nat) (hd : Option Nat) :
    (cfg.applyDesc cat' sz hd).catHandlePtr cat = cfg.catHandlePtr cat := by
  cases cat <;> cases cat' <;> (try exact absurd rfl hne) <;> cases hd <;>
    by_cases h : sz = 0 <;>
      simp [VkFFTConfiguration.applyDesc, VkFFTConfiguration.catHandlePtr, h]

lemma catNum_marshal (c : Config) (cfg : VkFFTConfiguration) (cat : BufCat) :
    (c.marshalBuffers cfg).catNum cat =
      if c.catSizeScalar cat ≠ 0 then 1 else cfg.catNum cat := by
  cases cat <;>
    simp [Config.marshalBuffers, catNum_applyDesc_self, catNum_applyDesc_of_ne]

lemma catSizePtr_marshal (c : Config) (cfg : VkFFTConfiguration) (cat : BufCat) :
    (c.marshalBuffers cfg).catSizePtr cat =
      if c.catSizeScalar cat ≠ 0 then some (c.catSizeScalar cat) else cfg.catSizePtr cat := by
  cases cat <;>
    simp [Config.marshalBuffers, catSizePtr_applyDesc_self, catSizePtr_applyDesc_of_ne]

lemma catHandlePtr_marshal_none (c : Config) (cfg : VkFFTConfiguration) (cat : BufCat)
    (h : c.catHandleScalar cat = none) :
    (c.marshalBuffers cfg).catHandlePtr cat = cfg.catHandlePtr cat := by
  cases cat <;>
    simp [Config.marshalBuffers, h, catHandlePtr_applyDesc_none, catHandlePtr_applyDesc_of_ne]

lemma catHandlePtr_marshal_some (c : Config) (cfg : VkFFTConfiguration) (cat : BufCat) (t : Nat)
    (h : c.catHandleScalar cat = some t) :
    (c.marshalBuffers cfg).catHandlePtr cat = some t := by
  cases cat <;>
    simp [Config.marshalBuffers, h, catHandlePtr_applyDesc_some, catHandlePtr_applyDesc_of_ne]

lemma baseCfg_cat (c : Config) (cat : BufCat) :
    c.baseCfg.catNum cat = 0 ∧ c.baseCfg.catSizePtr cat = none ∧
      c.baseCfg.catHandlePtr cat = none := by
  cases cat <;> exact ⟨rfl, rfl, rfl⟩

lemma flagsStep_cat (c : Config) (cfg : VkFFTConfiguration) (cat : BufCat) :
    (c.flagsStep cfg).catNum cat = cfg.catNum cat ∧
    (c.flagsStep cfg).catSizePtr cat = cfg.catSizePtr cat ∧
    (c.flagsStep cfg).catHandlePtr cat = cfg.catHandlePtr cat := by
  cases cat <;> rcases hi : c.input_formatted with _ | f <;>
    rcases ho : c.output_formatted with _ | g <;>
      simp [Config.flagsStep, hi, ho, VkFFTConfiguration.catNum,
        VkFFTConfiguration.catSizePtr, VkFFTConfiguration.catHandlePtr]

lemma flagsStep_symmetricKernel (c : Config) (cfg : VkFFTConfiguration) :
    (c.flagsStep cfg).symmetricKernel = c.symmetric_kernel.toNat := by
  rcases hi : c.input_formatted with _ | f <;> rcases ho : c.output_formatted with _ | g <;>
    simp [Config.flagsStep, hi, ho]

lemma precisionStep_ok_pres (c : Config) (cfg cfg' : VkFFTConfiguration)
    (h : c.precisionStep cfg = .ok cfg') (cat : BufCat) :
    cfg'.catNum cat = cfg.catNum cat ∧
    cfg'.catSizePtr cat = cfg.catSizePtr cat ∧
    cfg'.catHandlePtr cat = cfg.catHandlePtr cat ∧
    cfg'.symmetricKernel = cfg.symmetricKernel := by
  rcases hp : c.precision <;> simp [Config.precisionStep, hp] at h
  case Single =>
    subst h; exact ⟨rfl, rfl, rfl, rfl⟩
  case Double =>
    subst h; cases cat <;> exact ⟨rfl, rfl, rfl, rfl⟩
  case Half =>
    subst h; cases cat <;> exact ⟨rfl, rfl, rfl, rfl⟩
  case HalfMemory =>
    rcases hi : c.input_formatted with _ | b
    · rw [hi] at h
      rcases ho : c.output_formatted with _ | b'
      · rw [ho] at h; simp at h
        subst h; cases cat <;> exact ⟨rfl, rfl, rfl, rfl⟩
      · cases b' <;> rw [ho] at h <;> simp at h
        subst h; cases cat <;> exact ⟨rfl, rfl, rfl, rfl⟩
    · cases b <;> rw [hi] at h <;> simp at h
      rcases ho : c.output_formatted with _ | b'
      · rw [ho] at h; simp at h
        subst h; cases cat <;> exact ⟨rfl, rfl, rfl, rfl⟩
      · cases b' <;> rw [ho] at h <;> simp at h
        subst h; cases cat <;> exact ⟨rfl, rfl, rfl, rfl⟩

lemma batchStep_pres (c : Config) (cfg : VkFFTConfiguration) (cat : BufCat) :
    (c.batchStep cfg).catNum cat = cfg.catNum cat ∧
    (c.batchStep cfg).catSizePtr cat = cfg.catSizePtr cat ∧
    (c.batchStep cfg).catHandlePtr cat = cfg.catHandlePtr cat ∧
    (c.batchStep cfg).symmetricKernel = cfg.symmetricKernel ∧
    (c.batchStep cfg).isInputFormatted = cfg.isInputFormatted ∧
    (c.batchStep cfg).isOutputFormatted = cfg.isOutputFormatted ∧
    (c.batchStep cfg).halfPrecisionMemoryOnly = cfg.halfPrecisionMemoryOnly := by
  rcases hb : c.batch_count with _ | n <;> cases cat <;>
    simp [Config.batchStep, hb, VkFFTConfiguration.catNum,
      VkFFTConfiguration.catSizePtr, VkFFTConfiguration.catHandlePtr]

lemma precisionStep_halfMemory (c : Config) (cfg : VkFFTConfiguration)
    (hp : c.precision = .HalfMemory) :
    ((c.input_formatted = some false ∨ c.output_formatted = some false) →
      c.precisionStep cfg = .error .InvalidConfig) ∧
    (c.input_formatted ≠ some false → c.output_formatted ≠ some false →
      c.precisionStep cfg = .ok { cfg with
        halfPrecisionMemoryOnly := 1, isInputFormatted := 1, isOutputFormatted := 1 }) := by
  constructor
  · intro hio
    rcases hii : c.input_formatted with _ | (_ | _) <;>
      rcases hoo : c.output_formatted with _ | (_ | _) <;>
        rcases hio with hio | hio <;>
          simp_all [Config.precisionStep, hp]
  · intro hi ho
    rcases hii : c.input_formatted with _ | (_ | _) <;>
      rcases hoo : c.output_formatted with _ | (_ | _) <;>
        simp_all [Config.precisionStep, hp]

lemma as_sys_ok_elim (c : Config) (g : ConfigGuard) (h : c.as_sys = .ok g) :
    ∃ cfg', c.precisionStep (c.flagsStep (c.marshalBuffers c.baseCfg)) = .ok cfg' ∧
      g.config = c.batchStep cfg' := by
  simp only [Config.as_sys] at h
  rcases hps : c.precisionStep (c.flagsStep (c.marshalBuffers c.baseCfg)) with e | cfg'
  · rw [hps] at h; cases h
  · rw [hps] at h
    injection h with h
    subst h
    exact ⟨cfg', rfl, rfl⟩

/-! Claim theorems. -/

/-- C5: a Resource Descriptor constructed from a concrete buffer has
`size()` equal to the buffer's declared byte length and `as_buffer()`
returning that buffer; one constructed as SizeOnly has `size()` equal to the
stored value, `as_buffer()` returning none, and `as_buffer_size()` returning
the stored value. -/
theorem C5_bufferdesc (b : BufferObj) (n : Nat) :
    (BufferDesc.fromBuffer b).size = b.size ∧
    (BufferDesc.fromBuffer b).as_buffer = some b ∧
    (BufferDesc.fromUsize n).size = n ∧
    (BufferDesc.fromUsize n).as_buffer = none ∧
    (BufferDesc.fromUsize n).as_buffer_size = some n :=
  ⟨rfl, rfl, rfl, rfl, rfl⟩

/-- C5 witness: the properties evaluated on a concrete buffer of size 4 with
handle 2, and on the stored size 5. -/
theorem C5_bufferdesc_witness :
    (BufferDesc.fromBuffer ⟨4, 2⟩).size = 4 ∧
    (BufferDesc.fromBuffer ⟨4, 2⟩).as_buffer = some ⟨4, 2⟩ ∧
    (BufferDesc.fromUsize 5).size = 5 ∧
    (BufferDesc.fromUsize 5).as_buffer = none ∧
    (BufferDesc.fromUsize 5).as_buffer_size = some 5 :=
  C5_bufferdesc ⟨4, 2⟩ 5

/-- C9: the version integer returned by the native query is decoded into
major = v / 10000, minor = (v % 10000) / 100, patch = v % 100 (integer
division), and these are the values the Version accessors report. -/
theorem C9_version_decode (ver : Nat) :
    (version ver).major = ver / 10000 ∧
    (version ver).minor = ver % 10000 / 100 ∧
    (version ver).patch = ver % 100 :=
  ⟨rfl, rfl, rfl⟩

/-- C9 witness: decoding 10203 yields major 1, minor 2, patch 3. -/
theorem C9_version_decode_witness :
    (version 10203).major = 1 ∧ (version 10203).minor = 2 ∧ (version 10203).patch = 3 :=
  ⟨(C9_version_decode 10203).1.trans (by decide),
   (C9_version_decode 10203).2.1.trans (by decide),
   (C9_version_decode 10203).2.2.trans (by decide)⟩

/-- C7 counterexample: the claim states the dimension setter completes
normally only for 1–3 extents, but calling it with an empty extent array
(N = 0, outside 1–3) also completes normally (the source only asserts
`len <= 3`). -/
theorem C7_dim_cex :
    (ConfigBuilder.new.dim []).isSome = true ∧ ([] : List Nat).length = 0 := by
  decide

/-- C7 (amended): the dimension setter completes normally iff it is given at
most three extents, in which case it sets the dimension count to N and the
first N per-axis extents to the given values, leaving the remaining extents
unchanged; more than three extents fail fast via the assertion. -/
theorem C7_dim (b : ConfigBuilder) (d : List Nat) :
    ((b.dim d).isSome ↔ d.length ≤ 3) ∧
    (∀ c, b.dim d = some c →
      c.fft_dim = d.length ∧
      (0 < d.length → c.size0 = d.getD 0 0) ∧ (d.length = 0 → c.size0 = b.size0) ∧
      (1 < d.length → c.size1 = d.getD 1 0) ∧ (d.length ≤ 1 → c.size1 = b.size1) ∧
      (2 < d.length → c.size2 = d.getD 2 0) ∧ (d.length ≤ 2 → c.size2 = b.size2)) := by
  constructor
  · by_cases h : d.length ≤ 3 <;> simp [ConfigBuilder.dim, h]
  · intro c hc
    unfold ConfigBuilder.dim at hc
    by_cases h : d.length ≤ 3
    · rw [if_pos h] at hc
      injection hc with hc
      subst hc
      refine ⟨rfl, ?_, ?_, ?_, ?_, ?_, ?_⟩ <;> intro hh <;> simp [hh]
    · rw [if_neg h] at hc; cases hc

/-- C7 witness: `dim [4, 5]` completes normally, sets the dimension count to 2
and the first two extents to 4 and 5, and leaves the third extent at its
default 1. -/
theorem C7_dim_witness :
    (ConfigBuilder.new.dim [4, 5]).isSome = true ∧
    cDim.fft_dim = 2 ∧ cDim.size0 = 4 ∧ cDim.size1 = 5 ∧ cDim.size2 = 1 :=
  ⟨(C7_dim ConfigBuilder.new [4, 5]).1.mpr (by decide),
   ((C7_dim ConfigBuilder.new [4, 5]).2 cDim rfl).1.trans (by decide),
   (((C7_dim ConfigBuilder.new [4, 5]).2 cDim rfl).2.1 (by decide)).trans (by decide),
   (((C7_dim ConfigBuilder.new [4, 5]).2 cDim rfl).2.2.2.1 (by decide)).trans (by decide),
   (((C7_dim ConfigBuilder.new [4, 5]).2 cDim rfl).2.2.2.2.2.2 (by decide)).trans (by decide)⟩

/-- C3 counterexample: the claim states build() succeeds whenever device,
queue, fence and command pool are all present, but a builder with those four
set and no physical device fails with `NoPhysicalDevice`. -/
theorem C3_build_cex :
    bMissingPhys.device.isSome = true ∧ bMissingPhys.queue.isSome = true ∧
    bMissingPhys.fence.isSome = true ∧ bMissingPhys.command_pool.isSome = true ∧
    bMissingPhys.build = .error .NoPhysicalDevice := by
  decide

/-- C3 (amended): build() succeeds iff physical device, device, queue, fence
and command pool are all present; when one is missing it returns the distinct
BuildError naming the first missing field in that order and constructs no
configuration; every other builder field is carried over unconditionally, so
its absence never causes build() to fail. -/
theorem C3_build (b : ConfigBuilder) :
    ((∃ cfg, b.build = .ok cfg) ↔
      (b.physical_device.isSome ∧ b.device.isSome ∧ b.queue.isSome ∧
        b.fence.isSome ∧ b.command_pool.isSome)) ∧
    (b.physical_device = none → b.build = .error .NoPhysicalDevice) ∧
    (b.physical_device.isSome → b.device = none → b.build = .error .NoDevice) ∧
    (b.physical_device.isSome → b.device.isSome → b.queue = none →
      b.build = .error .NoQueue) ∧
    (b.physical_device.isSome → b.device.isSome → b.queue.isSome → b.fence = none →
      b.build = .error .NoFence) ∧
    (b.physical_device.isSome → b.device.isSome → b.queue.isSome → b.fence.isSome →
      b.command_pool = none → b.build = .error .NoCommandPool) := by
  rcases hpd : b.physical_device <;> rcases hd : b.device <;> rcases hq : b.queue <;>
    rcases hf : b.fence <;> rcases hcp : b.command_pool <;>
      simp [ConfigBuilder.build, hpd, hd, hq, hf, hcp]

/-- C3 witness: a builder missing only the device fails with `NoDevice`. -/
theorem C3_build_witness : bMissingDev.build = .error .NoDevice :=
  (C3_build bMissingDev).2.2.1 (by decide) rfl

/-- C2 counterexample: the claim states an unrecognized native code is itself
reported as an error, but `check_error` maps the unrecognized code -1 (not a
recognized failure code and not the success code) to `Ok`, treating it as
success. -/
theorem C2_unrecognized_cex :
    ((-1 : Int) ∉ errorCodeTable.map Prod.fst) ∧ (-1 : Int) ≠ VKFFT_SUCCESS ∧
    check_error (-1) = .ok () := by
  decide

/-- C2 (amended): each recognized failure code maps to its unique named Error
variant (codes and variants are pairwise distinct) and the success code maps
to Ok; however, every code the conversion does not recognize — not only the
success code — is treated as success rather than reported as an error. -/
theorem C2_check_error :
    (errorCodeTable.map Prod.fst).Pairwise (· ≠ ·) ∧
    (errorCodeTable.map Prod.snd).Pairwise (· ≠ ·) ∧
    VKFFT_SUCCESS ∉ errorCodeTable.map Prod.fst ∧
    check_error VKFFT_SUCCESS = .ok () ∧
    (∀ p ∈ errorCodeTable, check_error p.1 = .error p.2) ∧
    (∀ v : Int, v ∉ errorCodeTable.map Prod.fst → check_error v = .ok ()) := by
  refine ⟨by decide, by decide, by decide, by decide, by decide, ?_⟩
  intro v hv
  unfold check_error tryFromError
  rcases hf : errorCodeTable.find? (fun p => p.1 == v) with _ | p
  · rw [hf]
  · exfalso
    have hmem := List.mem_of_find?_eq_some hf
    have hpred := List.find?_some hf
    rw [beq_iff_eq] at hpred
    exact hv (hpred ▸ List.mem_map_of_mem Prod.fst hmem)

/-- C2 witness: the recognized code 1002 maps to its variant and the
unrecognized code -7 is treated as success. -/
theorem C2_check_error_witness :
    check_error 1002 = .error Error.InvalidDevice ∧ check_error (-7) = .ok () :=
  ⟨C2_check_error.2.2.2.2.1 (1002, Error.InvalidDevice) (by decide),
   C2_check_error.2.2.2.2.2 (-7) (by decide)⟩

/-- C1: evaluation of the code at the failing input.  The plan's Job
Configuration specifies a kernel buffer and the Launch Parameters also supply
one, yet `launch` performs no kernel mutual-exclusivity check: it reaches the
native append call and returns it instead of
`LaunchError::ConfigSpecifiesKernel` (the claim holds for the other four
categories but fails for the kernel category). -/
theorem C1_kernel_conflict_not_rejected :
    cK.kernel.isSome = true ∧ pK.kernel.isSome = true ∧
    (App.new cK).map (fun a => a.launch pK false) =
      .ok (.ok { direction := -1, params := pK.as_sys }) := by
  decide

/-- C6: every execution of a Compute Plan that reaches the native append-work
call passes direction flag -1 for `forward` and +1 for `inverse`. -/
theorem C6_direction (a : App) (p : LaunchParams) (call : AppendCall) :
    (a.forward p = .ok call → call.direction = -1) ∧
    (a.inverse p = .ok call → call.direction = 1) := by
  constructor
  · intro h
    simp only [App.forward, App.launch] at h
    split_ifs at h
    all_goals try cases h
    all_goals simp_all
  · intro h
    simp only [App.inverse, App.launch] at h
    split_ifs at h
    all_goals try cases h
    all_goals simp_all

/-- C6 witness: a conflict-free plan's forward launch reaches the append call
with direction -1 and its inverse launch with direction +1. -/
theorem C6_direction_witness :
    appPlain.forward pPlain = .ok callFw ∧ callFw.direction = -1 ∧
    appPlain.inverse pPlain = .ok callInv ∧ callInv.direction = 1 :=
  ⟨rfl, (C6_direction appPlain pPlain callFw).1 rfl, rfl,
   (C6_direction appPlain pPlain callInv).2 rfl⟩

/-- C4: with half-memory-only precision, marshaling fails with
`ConfigError::InvalidConfig` if either formatted flag was explicitly set to
false; otherwise it succeeds and the marshaled structure has both formatted
flags and the half-precision-memory-only flag set. -/
theorem C4_half_memory (c : Config) (g : ConfigGuard) (hp : c.precision = .HalfMemory) :
    ((c.input_formatted = some false ∨ c.output_formatted = some false) →
      c.as_sys = .error .InvalidConfig) ∧
    ((c.input_formatted ≠ some false ∧ c.output_formatted ≠ some false) →
      exOk c.as_sys = true) ∧
    (c.as_sys = .ok g →
      g.config.halfPrecisionMemoryOnly = 1 ∧ g.config.isInputFormatted = 1 ∧
        g.config.isOutputFormatted = 1) := by
  have hpre := precisionStep_halfMemory c (c.flagsStep (c.marshalBuffers c.baseCfg)) hp
  refine ⟨fun hio => ?_, fun hok => ?_, fun hg => ?_⟩
  · simp only [Config.as_sys]
    rw [hpre.1 hio]
  · simp only [Config.as_sys]
    rw [hpre.2 hok.1 hok.2]
    rfl
  · obtain ⟨cfg', hcfg, hgc⟩ := as_sys_ok_elim c g hg
    have hi : c.input_formatted ≠ some false := by
      intro hbad
      rw [hpre.1 (Or.inl hbad)] at hcfg
      cases hcfg
    have ho : c.output_formatted ≠ some false := by
      intro hbad
      rw [hpre.1 (Or.inr hbad)] at hcfg
      cases hcfg
    rw [hpre.2 hi ho] at hcfg
    injection hcfg with hcfg
    subst hcfg
    have hbp := batchStep_pres c ({ (c.flagsStep (c.marshalBuffers c.baseCfg)) with
      halfPrecisionMemoryOnly := 1, isInputFormatted := 1, isOutputFormatted := 1 }) BufCat.buffer
    rw [hgc]
    exact ⟨hbp.2.2.2.2.2.2.trans rfl, hbp.2.2.2.2.1.trans rfl, hbp.2.2.2.2.2.1.trans rfl⟩

/-- C4 witness: the contradictory configuration `cHMbad` fails with
InvalidConfig; the clean configuration `cHM` marshals successfully and its
guard has all three flags set. -/
theorem C4_half_memory_witness :
    cHMbad.as_sys = .error .InvalidConfig ∧ exOk cHM.as_sys = true ∧
    (gHM.config.halfPrecisionMemoryOnly = 1 ∧ gHM.config.isInputFormatted = 1 ∧
      gHM.config.isOutputFormatted = 1) :=
  ⟨(C4_half_memory cHMbad gFallback rfl).1 (Or.inl rfl),
   (C4_half_memory cHM gFallback rfl).2.1 ⟨by decide, by decide⟩,
   (C4_half_memory cHM gHM rfl).2.2 rfl⟩

/-- C8: for every buffer category being marshaled, an absent descriptor leaves
that category's count at zero and both pointer fields null; a SizeOnly
descriptor with non-zero size yields count 1 and a size pointer to the stored
size while the handle slot stays null; a concrete-buffer descriptor (whose
declared size is non-zero, as Vulkan guarantees for any created buffer)
yields count 1, the size pointer, and a non-null handle pointer referencing
the buffer's handle. -/
theorem C8_marshal (c : Config) (cat : BufCat) (g : ConfigGuard) (hok : c.as_sys = .ok g) :
    (c.catDesc cat = none →
      g.config.catNum cat = 0 ∧ g.config.catSizePtr cat = none ∧
        g.config.catHandlePtr cat = none) ∧
    (∀ n, c.catDesc cat = some (.BufferSize n) → n ≠ 0 →
      g.config.catNum cat = 1 ∧ g.config.catSizePtr cat = some n ∧
        g.config.catHandlePtr cat = none) ∧
    (∀ b, c.catDesc cat = some (.Buffer b) → b.size ≠ 0 →
      g.config.catNum cat = 1 ∧ g.config.catSizePtr cat = some b.size ∧
        g.config.catHandlePtr cat = some b.handle) := by
  obtain ⟨cfg', hps, hgc⟩ := as_sys_ok_elim c g hok
  have hb := batchStep_pres c cfg' cat
  have hpp := precisionStep_ok_pres c _ cfg' hps cat
  have hf := flagsStep_cat c (c.marshalBuffers c.baseCfg) cat
  have hbase := baseCfg_cat c cat
  have hnum : g.config.catNum cat = if c.catSizeScalar cat ≠ 0 then 1 else 0 := by
    rw [hgc, hb.1, hpp.1, hf.1, catNum_marshal, hbase.1]
  have hsize : g.config.catSizePtr cat =
      if c.catSizeScalar cat ≠ 0 then some (c.catSizeScalar cat) else none := by
    rw [hgc, hb.2.1, hpp.2.1, hf.2.1, catSizePtr_marshal, hbase.2.1]
  refine ⟨fun hd => ?_, fun n hd hn => ?_, fun b hd hbs => ?_⟩
  · have hsc : c.catSizeScalar cat = 0 := by simp [Config.catSizeScalar, hd]
    have hhs : c.catHandleScalar cat = none := by simp [Config.catHandleScalar, hd]
    have hhandle : g.config.catHandlePtr cat = none := by
      rw [hgc, hb.2.2.1, hpp.2.2.1, hf.2.2, catHandlePtr_marshal_none c _ cat hhs, hbase.2.2]
    refine ⟨?_, ?_, hhandle⟩
    · rw [hnum]; simp [hsc]
    · rw [hsize]; simp [hsc]
  · have hsc : c.catSizeScalar cat = n := by
      simp [Config.catSizeScalar, hd, BufferDesc.size]
    have hhs : c.catHandleScalar cat = none := by
      simp [Config.catHandleScalar, hd, BufferDesc.as_buffer]
    have hhandle : g.config.catHandlePtr cat = none := by
      rw [hgc, hb.2.2.1, hpp.2.2.1, hf.2.2, catHandlePtr_marshal_none c _ cat hhs, hbase.2.2]
    refine ⟨?_, ?_, hhandle⟩
    · rw [hnum, hsc]; simp [hn]
    · rw [hsize, hsc]; simp [hn]
  · have hsc : c.catSizeScalar cat = b.size := by
      simp [Config.catSizeScalar, hd, BufferDesc.size]
    have hhs : c.catHandleScalar cat = some b.handle := by
      simp [Config.catHandleScalar, hd, BufferDesc.as_buffer]
    have hhandle : g.config.catHandlePtr cat = some b.handle := by
      rw [hgc, hb.2.2.1, hpp.2.2.1, hf.2.2, catHandlePtr_marshal_some c _ cat _ hhs]
    refine ⟨?_, ?_, hhandle⟩
    · rw [hnum, hsc]; simp [hbs]
    · rw [hsize, hsc]; simp [hbs]

/-- C8 witness: in `cW` (size-only primary buffer of 32 bytes) the marshaled
structure has count 1, size pointer to 32 and a null handle for the buffer
category, and all-zero fields for the absent temp-buffer category; in `cK`
(concrete kernel buffer of size 64, handle 7) the kernel category has count
1, size pointer to 64 and a non-null handle pointer to handle 7. -/
theorem C8_marshal_witness :
    (gW.config.bufferNum = 1 ∧ gW.config.bufferSize = some 32 ∧ gW.config.buffer = none) ∧
    (gW.config.tempBufferNum = 0 ∧ gW.config.tempBufferSize = none ∧
      gW.config.tempBuffer = none) ∧
    (gK.config.kernelNum = 1 ∧ gK.config.kernelSize = some 64 ∧ gK.config.kernel = some 7) :=
  ⟨(C8_marshal cW .buffer gW rfl).2.1 32 rfl (by decide),
   (C8_marshal cW .tempBuffer gW rfl).1 rfl,
   (C8_marshal cK .kernel gK rfl).2.2 ⟨64, 7⟩ rfl (by decide)⟩

/-- C10: the public accessor `Config::symmetric_kernel` returns the
`kernel_convolution` field rather than the stored `symmetric_kernel` field,
while the marshaled structure's `symmetricKernel` flag reflects the true
`symmetric_kernel` field. -/
theorem C10_symmetric_kernel_accessor (c : Config) (g : ConfigGuard) :
    c.symmetric_kernel' = c.kernel_convolution ∧
    (c.as_sys = .ok g → g.config.symmetricKernel = c.symmetric_kernel.toNat) := by
  refine ⟨rfl, fun hg => ?_⟩
  obtain ⟨cfg', hps, hgc⟩ := as_sys_ok_elim c g hg
  have hb := batchStep_pres c cfg' BufCat.buffer
  have hpp := precisionStep_ok_pres c _ cfg' hps BufCat.buffer
  rw [hgc, hb.2.2.2.1, hpp.2.2.2, flagsStep_symmetricKernel]

/-- C10 witness: `cSym` has the symmetric-kernel flag set and the
kernel-convolution flag unset; its accessor reports false while the marshaled
structure's symmetricKernel flag is 1. -/
theorem C10_symmetric_kernel_witness :
    cSym.symmetric_kernel = true ∧ cSym.kernel_convolution = false ∧
    cSym.symmetric_kernel' = false ∧ gSym.config.symmetricKernel = 1 :=
  ⟨rfl, rfl, (C10_symmetric_kernel_accessor cSym gSym).1.trans rfl,
   ((C10_symmetric_kernel_accessor cSym gSym).2 rfl).trans rfl⟩

end VkFFTRs
